import Mathlib

/-!
Verification of the commission and refund calculator of the chronic-disease
coaching marketplace backend.

The embedded code comes from:
* `backend/app/services/commission_service.py` — `CommissionService.calculate_booking_amounts`
  and `CommissionService.calculate_refund`;
* `backend/app/core/config.py` — the `Settings` constants `PLATFORM_COMMISSION_RATE`
  and `PLATFORM_FEE_PER_BOOKING`;
* `backend/app/api/v1/coaches.py` — the `apply_as_coach` consultation-fee bounds check;
* `backend/app/api/v1/professional.py` — the `update_consultation_fee` bounds check.

Python `int` is modelled by `ℤ`; Python `float` values appearing here (the commission
rate 0.25, the refund percentages 1.0 / 0.5 / 0.0, the flat fee 50.0) are all exactly
representable and every product taken with them is exact for the magnitudes involved,
so they are modelled by `ℚ`.  Python `int(x)` applied to a float truncates toward zero,
modelled by `pytrunc`.
-/

namespace CDisease

/-- Python `int(x)` on a numeric value: truncation toward zero
(floor for non-negative arguments, ceiling for negative ones). -/
def pytrunc (q : ℚ) : ℤ := if 0 ≤ q then ⌊q⌋ else ⌈q⌉

/-- Configuration constants, from `app/core/config.py` (`class Settings`). -/
structure Settings where
  PLATFORM_COMMISSION_RATE : ℚ
  PLATFORM_FEE_PER_BOOKING : ℚ
deriving Repr, DecidableEq

/-- The configured values: `PLATFORM_COMMISSION_RATE: float = 0.25` and
`PLATFORM_FEE_PER_BOOKING: float = 50.0`. -/
def settings : Settings :=
  { PLATFORM_COMMISSION_RATE := 1/4
    PLATFORM_FEE_PER_BOOKING := 50 }

/-- The dictionary returned by `calculate_booking_amounts`, with one field per key. -/
structure PricingBreakdown where
  consultation_fee : ℤ
  platform_fee : ℚ
  commission_amount : ℤ
  commission_rate : ℚ
  coach_payout_amount : ℤ
  total_amount : ℚ
  platform_earnings : ℚ
deriving Repr, DecidableEq

/-- Body of `CommissionService.calculate_booking_amounts`, generalized over the two
configuration constants it reads from `settings` (the source reads
`settings.PLATFORM_FEE_PER_BOOKING` and `settings.PLATFORM_COMMISSION_RATE` at the
top of the function body):

    commission_amount = int(consultation_fee * commission_rate)
    coach_payout = consultation_fee - commission_amount
    total_amount = consultation_fee + platform_fee
    platform_earnings = commission_amount + platform_fee
-/
def calculate_booking_amounts_with (commission_rate platform_fee : ℚ)
    (consultation_fee : ℤ) : PricingBreakdown :=
  let commission_amount := pytrunc ((consultation_fee : ℚ) * commission_rate)
  let coach_payout := consultation_fee - commission_amount
  let total_amount := (consultation_fee : ℚ) + platform_fee
  let platform_earnings := (commission_amount : ℚ) + platform_fee
  { consultation_fee := consultation_fee
    platform_fee := platform_fee
    commission_amount := commission_amount
    commission_rate := commission_rate
    coach_payout_amount := coach_payout
    total_amount := total_amount
    platform_earnings := platform_earnings }

/-- `CommissionService.calculate_booking_amounts` as in the source, with the
configured constants. -/
def calculate_booking_amounts (consultation_fee : ℤ) : PricingBreakdown :=
  calculate_booking_amounts_with settings.PLATFORM_COMMISSION_RATE
    settings.PLATFORM_FEE_PER_BOOKING consultation_fee

/-- The dictionary returned by `calculate_refund`. -/
structure RefundBreakdown where
  refund_amount : ℤ
  refund_percentage : ℚ
  platform_retains : ℤ
deriving Repr, DecidableEq

/-- `CommissionService.calculate_refund`.  The source types `hours_before_appointment`
as `int` but only compares it, so it is modelled by `ℚ` to cover fractional hours;
`total_amount` and `platform_fee` follow the declared `int` type.

    if hours_before_appointment >= 24:
        refund_percentage = 1.0
        refund_amount = total_amount - platform_fee
    elif hours_before_appointment >= 12:
        refund_percentage = 0.5
        refund_amount = int(total_amount * refund_percentage)
    else:
        refund_percentage = 0.0
        refund_amount = 0
    return { ..., "platform_retains": total_amount - refund_amount }
-/
def calculate_refund (total_amount : ℤ) (hours_before_appointment : ℚ)
    (platform_fee : ℤ) : RefundBreakdown :=
  let pr : ℚ × ℤ :=
    if 24 ≤ hours_before_appointment then
      (1, total_amount - platform_fee)
    else if 12 ≤ hours_before_appointment then
      (1/2, pytrunc ((total_amount : ℚ) * (1/2)))
    else
      (0, 0)
  { refund_amount := pr.2
    refund_percentage := pr.1
    platform_retains := total_amount - pr.2 }

/-- A marketplace coach record, as stored by the endpoints (only the fields relevant
here: the listed fee and the `total_consultations` counter). -/
structure CoachRecord where
  id : String
  consultation_fee : ℤ
  total_consultations : ℕ
deriving Repr, DecidableEq

/-- Observable persistent state of the marketplace. -/
structure MarketplaceDB where
  coaches : List CoachRecord
deriving Repr, DecidableEq

/-- An invocation of `calculate_booking_amounts` threaded through the persistent
state: the source function body performs no database operation, so the state
passes through unchanged. -/
def calculate_booking_amounts_call (db : MarketplaceDB) (consultation_fee : ℤ) :
    MarketplaceDB × PricingBreakdown :=
  (db, calculate_booking_amounts consultation_fee)

/-- An invocation of `calculate_refund` threaded through the persistent state:
the source function body performs no database operation. -/
def calculate_refund_call (db : MarketplaceDB) (total_amount : ℤ)
    (hours_before_appointment : ℚ) (platform_fee : ℤ) :
    MarketplaceDB × RefundBreakdown :=
  (db, calculate_refund total_amount hours_before_appointment platform_fee)

/-- A FastAPI `HTTPException` value: status code and detail message. -/
structure HTTPException where
  status_code : ℕ
  detail : String
deriving Repr, DecidableEq

/-- The decision logic of `apply_as_coach` in `app/api/v1/coaches.py`: the
existing-profile check, then the consultation-fee bounds checks; an `ok` result
carries the fee that the subsequent `db.coaches.insert_one` stores.

    if existing: raise HTTPException(400, ...)
    if application.consultation_fee < 100: raise HTTPException(400, ...)
    if application.consultation_fee > 10000: raise HTTPException(400, ...)
-/
def apply_as_coach (has_existing_profile : Bool) (consultation_fee : ℤ) :
    Except HTTPException ℤ :=
  match has_existing_profile with
  | true =>
    .error { status_code := 400
             detail := "You already have a coach profile. Please contact admin to update." }
  | false =>
    if consultation_fee < 100 then
      .error { status_code := 400, detail := "Minimum consultation fee is Rs 100" }
    else if consultation_fee > 10000 then
      .error { status_code := 400, detail := "Maximum consultation fee is Rs 10,000" }
    else
      .ok consultation_fee

/-- The decision logic of `update_consultation_fee` in `app/api/v1/professional.py`:
bounds checks first, then the profile lookup; an `ok` result carries the fee that
the subsequent `db.coaches.update_one` stores.

    if request.consultation_fee < 100: raise HTTPException(400, ...)
    if request.consultation_fee > 10000: raise HTTPException(400, ...)
    if not coach: raise HTTPException(404, ...)
-/
def update_consultation_fee (coach_found : Bool) (consultation_fee : ℤ) :
    Except HTTPException ℤ :=
  if consultation_fee < 100 then
    .error { status_code := 400, detail := "Consultation fee must be at least Rs 100" }
  else if consultation_fee > 10000 then
    .error { status_code := 400, detail := "Consultation fee cannot exceed Rs 10,000" }
  else
    match coach_found with
    | false => .error { status_code := 404, detail := "Professional profile not found" }
    | true => .ok consultation_fee

/-- `apply_as_coach` threaded through the list of stored fees: the insert runs
only after all validation passes (a raise aborts the handler before the insert). -/
def apply_as_coach_db (stored_fees : List ℤ) (has_existing_profile : Bool)
    (consultation_fee : ℤ) : List ℤ × Except HTTPException ℤ :=
  match apply_as_coach has_existing_profile consultation_fee with
  | .error e => (stored_fees, .error e)
  | .ok fee => (stored_fees ++ [fee], .ok fee)

/-- `update_consultation_fee` threaded through the stored fee: the update runs
only after all validation passes. -/
def update_consultation_fee_db (stored_fee : ℤ) (coach_found : Bool)
    (consultation_fee : ℤ) : ℤ × Except HTTPException ℤ :=
  match update_consultation_fee coach_found consultation_fee with
  | .error e => (stored_fee, .error e)
  | .ok fee => (fee, .ok fee)

/-- Truncating half of a non-negative integer stays between 0 and the integer. -/
lemma pytrunc_half_nonneg_le (t : ℤ) (ht : 0 ≤ t) :
    0 ≤ pytrunc ((t : ℚ) * (1/2)) ∧ pytrunc ((t : ℚ) * (1/2)) ≤ t := by
  have hq : (0:ℚ) ≤ (t : ℚ) * (1/2) :=
    mul_nonneg (by exact_mod_cast ht) (by norm_num)
  have hfl : pytrunc ((t : ℚ) * (1/2)) = ⌊(t : ℚ) * (1/2)⌋ := by
    simp only [pytrunc]
    rw [if_pos hq]
  constructor
  · rw [hfl]
    exact Int.le_floor.mpr (by exact_mod_cast hq)
  · rw [hfl]
    have h1 : (t : ℚ) * (1/2) ≤ (t : ℚ) := by linarith
    calc ⌊(t : ℚ) * (1/2)⌋ ≤ ⌊(t : ℚ)⌋ := Int.floor_le_floor h1
    _ = t := Int.floor_intCast t

/-- C1: for every non-negative integer consultation fee and every commission rate
in the interval from 0 to 1, the pricing breakdown satisfies
`commission_amount + coach_payout_amount = consultation_fee` — the payout is the
complement of the truncated commission, so the partition is exact. -/
theorem C1_partition_invariant (f : ℤ) (r : ℚ)
    (_hf : 0 ≤ f) (_h0 : 0 ≤ r) (_h1 : r ≤ 1) :
    (calculate_booking_amounts_with r settings.PLATFORM_FEE_PER_BOOKING f).commission_amount
      + (calculate_booking_amounts_with r settings.PLATFORM_FEE_PER_BOOKING f).coach_payout_amount
      = f := by
  simp only [calculate_booking_amounts_with]
  ring

theorem C1_partition_invariant_witness :
    (0 : ℤ) ≤ 800 ∧ (0 : ℚ) ≤ 1/4 ∧ (1/4 : ℚ) ≤ 1 ∧
    (calculate_booking_amounts_with (1/4) settings.PLATFORM_FEE_PER_BOOKING 800).commission_amount
      + (calculate_booking_amounts_with (1/4) settings.PLATFORM_FEE_PER_BOOKING 800).coach_payout_amount
      = 800 :=
  ⟨by norm_num, by norm_num, by norm_num,
    C1_partition_invariant 800 (1/4) (by norm_num) (by norm_num) (by norm_num)⟩

/-- C2: `calculate_refund` selects exactly one tier: hours at least 24 yields
percentage 1, hours in the half-open interval from 12 to 24 yields 1/2, hours
below 12 (negatives included) yields 0; the boundaries 24 and 12 resolve to the
higher-refund tier, and the three ranges are exhaustive and mutually exclusive. -/
theorem C2_tier_selection (t p : ℤ) (h : ℚ) :
    (24 ≤ h → (calculate_refund t h p).refund_percentage = 1) ∧
    (12 ≤ h ∧ h < 24 → (calculate_refund t h p).refund_percentage = 1/2) ∧
    (h < 12 → (calculate_refund t h p).refund_percentage = 0) ∧
    (24 ≤ h ∨ (12 ≤ h ∧ h < 24) ∨ h < 12) ∧
    (24 ≤ h → ¬(12 ≤ h ∧ h < 24) ∧ ¬(h < 12)) ∧
    (12 ≤ h ∧ h < 24 → ¬(h < 12)) := by
  refine ⟨?_, ?_, ?_, ?_, ?_, ?_⟩
  · intro hh
    simp only [calculate_refund]
    split_ifs <;> first | rfl | linarith
  · rintro ⟨h1, h2⟩
    simp only [calculate_refund]
    split_ifs <;> first | rfl | linarith
  · intro hh
    simp only [calculate_refund]
    split_ifs <;> first | rfl | linarith
  · rcases le_or_lt 24 h with h24 | h24
    · exact Or.inl h24
    · rcases le_or_lt 12 h with h12 | h12
      · exact Or.inr (Or.inl ⟨h12, h24⟩)
      · exact Or.inr (Or.inr h12)
  · intro hh
    exact ⟨fun hc => by linarith [hc.2], by linarith⟩
  · rintro ⟨h1, h2⟩
    exact fun hc => by linarith

theorem C2_tier_selection_witness :
    (calculate_refund 850 24 50).refund_percentage = 1 ∧
    (calculate_refund 850 12 50).refund_percentage = 1/2 ∧
    (calculate_refund 850 11 50).refund_percentage = 0 :=
  ⟨(C2_tier_selection 850 50 24).1 (by norm_num),
   (C2_tier_selection 850 50 12).2.1 ⟨by norm_num, by norm_num⟩,
   (C2_tier_selection 850 50 11).2.2.1 (by norm_num)⟩

/-- C3 (amended): in the top tier the refund is `total_amount - platform_fee`; in
the middle tier it is the truncation toward zero of `total_amount * (1/2)`, which
equals the floor whenever `total_amount` is non-negative; in the bottom tier it is
0; and the two boundary examples from the spec evaluate exactly as stated. -/
theorem C3_refund_amount_formulas (t p : ℤ) (h : ℚ) :
    (24 ≤ h → (calculate_refund t h p).refund_amount = t - p) ∧
    (12 ≤ h ∧ h < 24 →
      (calculate_refund t h p).refund_amount = pytrunc ((t : ℚ) * (1/2))) ∧
    (12 ≤ h ∧ h < 24 → 0 ≤ t →
      (calculate_refund t h p).refund_amount = ⌊(t : ℚ) * (1/2)⌋) ∧
    (h < 12 → (calculate_refund t h p).refund_amount = 0) ∧
    ((calculate_refund 850 24 50).refund_percentage = 1 ∧
      (calculate_refund 850 24 50).refund_amount = 800 ∧
      (calculate_refund 850 24 50).platform_retains = 50) ∧
    ((calculate_refund 850 12 50).refund_percentage = 1/2 ∧
      (calculate_refund 850 12 50).refund_amount = 425 ∧
      (calculate_refund 850 12 50).platform_retains = 425) := by
  refine ⟨?_, ?_, ?_, ?_, ?_, ?_⟩
  · intro hh
    simp only [calculate_refund]
    split_ifs <;> first | rfl | linarith
  · rintro ⟨h1, h2⟩
    simp only [calculate_refund]
    split_ifs <;> first | rfl | linarith
  · rintro ⟨h1, h2⟩ ht
    have hq : (0:ℚ) ≤ (t : ℚ) * (1/2) :=
      mul_nonneg (by exact_mod_cast ht) (by norm_num)
    simp only [calculate_refund, pytrunc]
    split_ifs <;> first | rfl | linarith
  · intro hh
    simp only [calculate_refund]
    split_ifs <;> first | rfl | linarith
  · norm_num [calculate_refund, pytrunc]
  · norm_num [calculate_refund, pytrunc]

/-- C3 counterexample: the claim universally asserts the middle-tier formula
`floor(total_amount * 0.5)` for every `total_amount`, yet at `total_amount = -3`
the code truncates toward zero and returns -1 while the floor is -2. -/
theorem C3_floor_counterexample :
    (calculate_refund (-3) 12 0).refund_amount ≠ ⌊((-3 : ℤ) : ℚ) * (1/2)⌋ := by
  have h1 : (calculate_refund (-3) 12 0).refund_amount = -1 := by
    norm_num [calculate_refund, pytrunc]
    rw [Int.ceil_eq_iff]
    norm_num
  have h2 : ⌊((-3 : ℤ) : ℚ) * (1/2)⌋ = -2 := by norm_num
  rw [h1, h2]
  norm_num

theorem C3_refund_amount_formulas_witness :
    (calculate_refund 850 24 50).refund_amount = 850 - 50 ∧
    (calculate_refund 850 13 50).refund_amount = ⌊((850 : ℤ) : ℚ) * (1/2)⌋ :=
  ⟨(C3_refund_amount_formulas 850 50 24).1 (by norm_num),
   (C3_refund_amount_formulas 850 50 13).2.2.1 ⟨by norm_num, by norm_num⟩ (by norm_num)⟩

/-- C4: the commission is the truncation toward zero of
`consultation_fee * commission_rate` (the floor, for non-negative fees), and the
concrete examples at fees 800 and 801 evaluate exactly as the spec states —
801 shows truncation rather than rounding to nearest or up. -/
theorem C4_truncation (f : ℤ) (hf : 0 ≤ f) :
    (calculate_booking_amounts f).commission_amount
      = pytrunc ((f : ℚ) * settings.PLATFORM_COMMISSION_RATE) ∧
    (calculate_booking_amounts f).commission_amount = ⌊(f : ℚ) * (1/4)⌋ ∧
    ((calculate_booking_amounts 800).commission_amount = 200 ∧
      (calculate_booking_amounts 800).coach_payout_amount = 600 ∧
      (calculate_booking_amounts 800).total_amount = 850 ∧
      (calculate_booking_amounts 800).platform_earnings = 250) ∧
    ((calculate_booking_amounts 801).commission_amount = 200 ∧
      (calculate_booking_amounts 801).coach_payout_amount = 601) := by
  have hq : (0:ℚ) ≤ (f : ℚ) * (1/4) :=
    mul_nonneg (by exact_mod_cast hf) (by norm_num)
  refine ⟨rfl, ?_, ?_, ?_⟩
  · simp only [calculate_booking_amounts, calculate_booking_amounts_with,
      settings, pytrunc]
    split_ifs <;> first | rfl | linarith
  · norm_num [calculate_booking_amounts, calculate_booking_amounts_with,
      settings, pytrunc]
  · norm_num [calculate_booking_amounts, calculate_booking_amounts_with,
      settings, pytrunc]

theorem C4_truncation_witness :
    (0 : ℤ) ≤ 800 ∧
    (calculate_booking_amounts 800).commission_amount = ⌊((800 : ℤ) : ℚ) * (1/4)⌋ :=
  ⟨by norm_num, (C4_truncation 800 (by norm_num)).2.1⟩

/-- C5: for every consultation fee, the breakdown satisfies
`total_amount = consultation_fee + platform_fee` and
`platform_earnings = commission_amount + platform_fee`, with the configured
constants. -/
theorem C5_total_and_earnings (f : ℤ) :
    (calculate_booking_amounts f).total_amount
      = (f : ℚ) + settings.PLATFORM_FEE_PER_BOOKING ∧
    (calculate_booking_amounts f).platform_earnings
      = ((calculate_booking_amounts f).commission_amount : ℚ)
        + settings.PLATFORM_FEE_PER_BOOKING :=
  ⟨rfl, rfl⟩

/-- C6: for every `total_amount`, `hours_before_appointment` and `platform_fee`,
the refund breakdown satisfies `refund_amount + platform_retains = total_amount`:
`platform_retains` is always computed as the complement. -/
theorem C6_refund_complement (t p : ℤ) (h : ℚ) :
    (calculate_refund t h p).refund_amount
      + (calculate_refund t h p).platform_retains = t := by
  simp only [calculate_refund]
  split_ifs <;> ring

/-- C7 counterexample: the claim promises `0 ≤ refund_amount` from the sole
precondition `0 ≤ total_amount`, but at `total_amount = 0`, `hours = 24`,
`platform_fee = 50` the code returns refund -50. -/
theorem C7_nonneg_counterexample :
    0 ≤ (0 : ℤ) ∧ ¬ (0 ≤ (calculate_refund 0 24 50).refund_amount) := by
  refine ⟨le_refl 0, ?_⟩
  norm_num [calculate_refund]

/-- C7 (amended): under the preconditions `0 ≤ total_amount` and
`0 ≤ platform_fee ≤ total_amount`, the refund satisfies
`0 ≤ refund_amount ≤ total_amount`, and `refund_percentage` is one of 1, 1/2, 0. -/
theorem C7_refund_bounds (t p : ℤ) (h : ℚ)
    (ht : 0 ≤ t) (hp0 : 0 ≤ p) (hpt : p ≤ t) :
    0 ≤ (calculate_refund t h p).refund_amount ∧
    (calculate_refund t h p).refund_amount ≤ t ∧
    ((calculate_refund t h p).refund_percentage = 1 ∨
      (calculate_refund t h p).refund_percentage = 1/2 ∨
      (calculate_refund t h p).refund_percentage = 0) := by
  have hb := pytrunc_half_nonneg_le t ht
  simp only [calculate_refund]
  split_ifs
  · exact ⟨by omega, by omega, Or.inl rfl⟩
  · exact ⟨hb.1, hb.2, Or.inr (Or.inl rfl)⟩
  · exact ⟨le_refl 0, ht, Or.inr (Or.inr rfl)⟩

theorem C7_refund_bounds_witness :
    (0 : ℤ) ≤ 850 ∧ (0 : ℤ) ≤ 50 ∧ (50 : ℤ) ≤ 850 ∧
    (0 ≤ (calculate_refund 850 12 50).refund_amount ∧
      (calculate_refund 850 12 50).refund_amount ≤ 850 ∧
      ((calculate_refund 850 12 50).refund_percentage = 1 ∨
        (calculate_refund 850 12 50).refund_percentage = 1/2 ∨
        (calculate_refund 850 12 50).refund_percentage = 0)) :=
  ⟨by norm_num, by norm_num, by norm_num,
    C7_refund_bounds 850 50 12 (by norm_num) (by norm_num) (by norm_num)⟩

/-- C8: both calculator entry points are deterministic and pure — threaded
through the observable persistent state they leave it unchanged, and a repeated
invocation with identical arguments yields an identical structure. -/
theorem C8_purity (db : MarketplaceDB) (f t p : ℤ) (h : ℚ) :
    (calculate_booking_amounts_call db f).1 = db ∧
    (calculate_refund_call db t h p).1 = db ∧
    (calculate_booking_amounts_call (calculate_booking_amounts_call db f).1 f).2
      = (calculate_booking_amounts_call db f).2 ∧
    (calculate_refund_call (calculate_refund_call db t h p).1 t h p).2
      = (calculate_refund_call db t h p).2 :=
  ⟨rfl, rfl, rfl, rfl⟩

/-- C9: the coach-fee-setting endpoints accept exactly the fees between 100 and
10000 inclusive; an out-of-range fee is rejected with status 400 and nothing is
stored. -/
theorem C9_fee_bounds_validation (f : ℤ) :
    ((∃ fee, apply_as_coach false f = .ok fee) ↔ 100 ≤ f ∧ f ≤ 10000) ∧
    ((∃ fee, update_consultation_fee true f = .ok fee) ↔ 100 ≤ f ∧ f ≤ 10000) ∧
    (f < 100 ∨ 10000 < f →
      (∃ e, apply_as_coach false f = .error e ∧ e.status_code = 400) ∧
      (∃ e, update_consultation_fee true f = .error e ∧ e.status_code = 400) ∧
      (apply_as_coach_db [] false f).1 = [] ∧
      (update_consultation_fee_db 500 true f).1 = 500) := by
  refine ⟨?_, ?_, ?_⟩
  · constructor
    · rintro ⟨fee, hfee⟩
      simp only [apply_as_coach] at hfee
      split_ifs at hfee <;> simp at hfee <;> omega
    · rintro ⟨h1, h2⟩
      refine ⟨f, ?_⟩
      simp only [apply_as_coach]
      split_ifs with hlt hgt
      · omega
      · omega
      · rfl
  · constructor
    · rintro ⟨fee, hfee⟩
      simp only [update_consultation_fee] at hfee
      split_ifs at hfee <;> simp at hfee <;> omega
    · rintro ⟨h1, h2⟩
      refine ⟨f, ?_⟩
      simp only [update_consultation_fee]
      split_ifs with hlt hgt
      · omega
      · omega
      · rfl
  · intro hf
    refine ⟨?_, ?_, ?_, ?_⟩
    · simp only [apply_as_coach]
      split_ifs with h1 h2
      · exact ⟨_, rfl, rfl⟩
      · exact ⟨_, rfl, rfl⟩
      · exfalso
        rcases hf with hf | hf <;> omega
    · simp only [update_consultation_fee]
      split_ifs with h1 h2
      · exact ⟨_, rfl, rfl⟩
      · exact ⟨_, rfl, rfl⟩
      · exfalso
        rcases hf with hf | hf <;> omega
    · simp only [apply_as_coach_db, apply_as_coach]
      split_ifs with h1 h2
      · rfl
      · rfl
      · exfalso
        rcases hf with hf | hf <;> omega
    · simp only [update_consultation_fee_db, update_consultation_fee]
      split_ifs with h1 h2
      · rfl
      · rfl
      · exfalso
        rcases hf with hf | hf <;> omega

theorem C9_fee_bounds_validation_witness :
    (∃ e, apply_as_coach false 50 = .error e ∧ e.status_code = 400) ∧
    (∃ e, update_consultation_fee true 50 = .error e ∧ e.status_code = 400) ∧
    (apply_as_coach_db [] false 50).1 = [] ∧
    (update_consultation_fee_db 500 true 50).1 = 500 :=
  (C9_fee_bounds_validation 50).2.2 (Or.inl (by norm_num))

/-- C10: below the full-refund tier (hours strictly less than 24) the
`platform_fee` argument has no influence: the whole refund breakdown is
identical for any two platform fees. -/
theorem C10_platform_fee_noninterference (t p1 p2 : ℤ) (h : ℚ) (hlt : h < 24) :
    calculate_refund t h p1 = calculate_refund t h p2 := by
  simp only [calculate_refund]
  split_ifs <;> first | rfl | linarith

theorem C10_platform_fee_noninterference_witness :
    calculate_refund 850 12 50 = calculate_refund 850 12 60 :=
  C10_platform_fee_noninterference 850 50 60 12 (by norm_num)

end CDisease
